import Mathlib

/-!
Shallow embedding of the OAuth callback handler of
`src/google-sheets-mcp-ts/app/api/oauth/callback/route.ts` (the exported
`GET` function), together with proofs of the specified properties.

Modelling choices, all read off the TypeScript source:
* `searchParams.get(k)` returns `string | null`; we model it as
  `Option String`.  The source tests parameters with JavaScript
  truthiness (`if (error)`, `if (!code || !state)`), under which both
  `null` and the empty string are falsy; `truthy` captures this.
* `global.oauthStates` is `Map<string, {codeVerifier, timestamp}> |
  undefined`; we model it as `Option (List (String × StateEntry))`
  with first-match lookup and key deletion.
* `Date.now()` and the `process.env` record are ambient inputs of the
  handler; they become explicit parameters `now : Int` (milliseconds)
  and `Env`.
* The single outbound `fetch` of the token endpoint is modelled by a
  function parameter `fetchTok : TokenRequest → FetchOutcome`; outcome
  `threw` covers a rejected promise (network error / timeout / body
  parse throw), which the source's `catch` block turns into a 500.
* The handler's observable effects — the HTTP response, the state
  store left behind, every store lookup performed and every outbound
  token request issued — are returned in a `GETResult` record.
-/

/-- The value stored in `global.oauthStates` for a state key:
`{ codeVerifier, timestamp }`. -/
structure StateEntry where
  codeVerifier : String
  timestamp : Int
deriving Repr, DecidableEq

/-- `global.oauthStates : Map<string, StateEntry> | undefined`. -/
abbrev OAuthStates := Option (List (String × StateEntry))

/-- The query parameters of the callback request that the handler reads. -/
structure CallbackRequest where
  code : Option String
  state : Option String
  error : Option String
  error_description : Option String
deriving Repr, DecidableEq

/-- The environment variables the handler reads from `process.env`. -/
structure Env where
  OAUTH_CLIENT_ID : Option String
  OAUTH_CLIENT_SECRET : Option String
  OAUTH_REDIRECT_URI : Option String
  VERCEL_URL : Option String
deriving Repr, DecidableEq

/-- JavaScript truthiness of a `string | null` value: `null` and the
empty string are falsy. -/
def truthy : Option String → Bool
  | none => false
  | some s => s ≠ ""

/-- JavaScript `a || b` on a `string | undefined` left operand with a
string default. -/
def truthyOr (a : Option String) (b : String) : String :=
  if truthy a then a.getD "" else b

/-- `global.oauthStates?.get(state)`. -/
def mapGet (m : OAuthStates) (k : String) : Option StateEntry :=
  match m with
  | none => none
  | some l => l.lookup k

/-- `global.oauthStates.delete(state)` (the handler only calls it when
the map is defined; deleting on `undefined` is modelled as a no-op,
a branch the handler never reaches). -/
def mapDelete (m : OAuthStates) (k : String) : OAuthStates :=
  m.map (fun l => l.filter (fun p => p.1 ≠ k))

/-- The JSON body expected from a successful token-endpoint response:
`access_token, token_type, expires_in, refresh_token?, scope?` (all
fields optional at the JSON level; the handler copies them through). -/
structure TokenJson where
  access_token : Option String
  token_type : Option String
  expires_in : Option Int
  refresh_token : Option String
  scope : Option String
deriving Repr, DecidableEq

/-- The outbound token-exchange request the handler builds for `fetch`. -/
structure TokenRequest where
  url : String
  method : String
  contentType : String
  accept : String
  body : List (String × String)
deriving Repr, DecidableEq

/-- Outcome of the awaited `fetch` (plus body read): a 2xx response with
parsed JSON, a non-2xx response with its body text, or a thrown
error (network failure, timeout, malformed body). -/
inductive FetchOutcome where
  | ok (json : TokenJson)
  | notOk (status : Nat) (text : String)
  | threw (message : String)
deriving Repr, DecidableEq

/-- The distinct JSON responses the handler can produce, one constructor
per `NextResponse.json(...)` call site in the source, carrying the data
that call site puts in the body. -/
inductive HandlerResponse where
  | oauthProviderError (details : String) (description : Option String)
  | missingParams (missingCode : Bool) (missingState : Bool)
  | invalidState
  | expiredState
  | notConfigured
  | tokenExchangeFailed (status : Nat) (details : String)
  | success (access_token : Option String) (token_type : Option String)
      (expires_in : Option Int) (refresh_token : Option String)
      (scope : Option String)
  | internalError (details : String)
deriving Repr, DecidableEq

/-- The HTTP status attached to each response in the source. -/
def HandlerResponse.status : HandlerResponse → Nat
  | .oauthProviderError _ _ => 400
  | .missingParams _ _ => 400
  | .invalidState => 400
  | .expiredState => 400
  | .notConfigured => 500
  | .tokenExchangeFailed _ _ => 400
  | .success _ _ _ _ _ => 200
  | .internalError _ => 500

/-- Whether a response is the success (HTTP 200) response. -/
def HandlerResponse.isSuccess : HandlerResponse → Bool
  | .success _ _ _ _ _ => true
  | _ => false

/-- Observable result of one handler invocation: the response, the state
store left behind, the keys looked up in the store, and the outbound
token requests issued. -/
structure GETResult where
  response : HandlerResponse
  states : OAuthStates
  lookups : List String
  requests : List TokenRequest
deriving Repr, DecidableEq

/-- `redirectUri` as computed in the source:
`process.env.OAUTH_REDIRECT_URI || ((process.env.VERCEL_URL ||
'http://localhost:3000') + '/api/oauth/callback')`. -/
def redirectUri (env : Env) : String :=
  truthyOr env.OAUTH_REDIRECT_URI
    (truthyOr env.VERCEL_URL "http://localhost:3000" ++ "/api/oauth/callback")

/-- The `tokenData` object the source form-encodes into the POST body. -/
def tokenData (env : Env) (code codeVerifier : String) :
    List (String × String) :=
  [("grant_type", "authorization_code"),
   ("client_id", env.OAUTH_CLIENT_ID.getD ""),
   ("client_secret", env.OAUTH_CLIENT_SECRET.getD ""),
   ("code", code),
   ("redirect_uri", redirectUri env),
   ("code_verifier", codeVerifier)]

/-- The full outbound request of the source's `fetch` call. -/
def mkTokenRequest (env : Env) (code codeVerifier : String) : TokenRequest :=
  { url := "https://api.anthropic.com/oauth/token"
    method := "POST"
    contentType := "application/x-www-form-urlencoded"
    accept := "application/json"
    body := tokenData env code codeVerifier }

/-- The callback handler `GET` of
`app/api/oauth/callback/route.ts`, translated branch for branch.
Ambient inputs (`global.oauthStates`, `Date.now()`, `process.env`,
`fetch`) are explicit parameters. -/
def GET (req : CallbackRequest) (env : Env) (oauthStates : OAuthStates)
    (now : Int) (fetchTok : TokenRequest → FetchOutcome) : GETResult :=
  if truthy req.error then
    { response := .oauthProviderError (req.error.getD "") req.error_description
      states := oauthStates, lookups := [], requests := [] }
  else if !truthy req.code || !truthy req.state then
    { response := .missingParams (!truthy req.code) (!truthy req.state)
      states := oauthStates, lookups := [], requests := [] }
  else
    let code := req.code.getD ""
    let state := req.state.getD ""
    match mapGet oauthStates state with
    | none =>
      { response := .invalidState
        states := oauthStates, lookups := [state], requests := [] }
    | some storedStateInfo =>
      let tenMinutesAgo := now - (10 * 60 * 1000)
      if storedStateInfo.timestamp < tenMinutesAgo then
        { response := .expiredState
          states := mapDelete oauthStates state
          lookups := [state], requests := [] }
      else
        if !truthy env.OAUTH_CLIENT_ID || !truthy env.OAUTH_CLIENT_SECRET then
          { response := .notConfigured
            states := oauthStates, lookups := [state], requests := [] }
        else
          let tokenReq := mkTokenRequest env code storedStateInfo.codeVerifier
          match fetchTok tokenReq with
          | .threw msg =>
            { response := .internalError msg
              states := oauthStates, lookups := [state]
              requests := [tokenReq] }
          | .notOk status text =>
            { response := .tokenExchangeFailed status text
              states := oauthStates, lookups := [state]
              requests := [tokenReq] }
          | .ok j =>
            { response := .success j.access_token j.token_type j.expires_in
                j.refresh_token j.scope
              states := mapDelete oauthStates state
              lookups := [state], requests := [tokenReq] }

/-! ### Concrete inputs used to exercise the theorems -/

/-- A well-formed callback request: `?code=abc123&state=s1`. -/
def wReq : CallbackRequest := ⟨some "abc123", some "s1", none, none⟩

/-- An environment with client credentials and redirect URI configured. -/
def wEnv : Env :=
  ⟨some "cid", some "csecret", some "https://example.com/api/oauth/callback",
    none⟩

/-- An environment with no client credentials configured. -/
def wEnvBare : Env := ⟨none, none, none, none⟩

/-- A stored state entry created at time 0 with verifier `v1`. -/
def wEntry : StateEntry := ⟨"v1", 0⟩

/-- A store holding exactly the entry for state `s1`. -/
def wStates : OAuthStates := some [("s1", wEntry)]

/-- A token-endpoint JSON body for a successful exchange. -/
def wJson : TokenJson := ⟨some "tok", some "bearer", some 3600, none, none⟩

/-- A token endpoint that always answers 2xx with `wJson`. -/
def wFetchOk : TokenRequest → FetchOutcome := fun _ => .ok wJson

/-- A token endpoint that always answers HTTP 400 `invalid_grant`. -/
def wFetchBad : TokenRequest → FetchOutcome := fun _ => .notOk 400 "invalid_grant"

/-- A fetch that always throws (transport-level failure). -/
def wFetchThrew : TokenRequest → FetchOutcome := fun _ => .threw "network error"

/-! ### Branch characterisations of `GET`

One lemma per terminal branch of the handler, used by the claim
theorems below. -/

/-- Association-list lookup after filtering a key out: that key is gone,
every other key is untouched. -/
lemma lookup_filter_key (t : List (String × StateEntry)) (k k' : String) :
    (t.filter (fun p => p.1 ≠ k)).lookup k' =
      if k' = k then none else t.lookup k' := by
  induction t with
  | nil => simp
  | cons p t ih =>
    rcases p with ⟨a, b⟩
    by_cases hp : a = k
    · have h1 : (decide ((a, b).1 ≠ k)) = false := by simp [hp]
      by_cases hk : k' = k
      · subst hk
        simp only [List.filter_cons, h1, Bool.false_eq_true, if_false, ih,
          if_true]
      · have h2 : (k' == a) = false := beq_eq_false_iff_ne.mpr (hp ▸ hk)
        simp only [List.filter_cons, h1, Bool.false_eq_true, if_false, ih, hk,
          List.lookup, h2]
    · have h1 : (decide ((a, b).1 ≠ k)) = true := by simp [hp]
      by_cases hk : k' = a
      · have h2 : (k' == a) = true := beq_iff_eq.mpr hk
        have hkk : ¬ k' = k := fun h => hp (hk ▸ h)
        simp only [List.filter_cons, h1, if_true, List.lookup, h2, hkk, if_false]
      · have h2 : (k' == a) = false := beq_eq_false_iff_ne.mpr hk
        simp only [List.filter_cons, h1, if_true, List.lookup, h2, ih]

/-- Looking a key up after `mapDelete` of that key yields nothing;
other keys are untouched. -/
lemma mapGet_mapDelete (m : OAuthStates) (k k' : String) :
    mapGet (mapDelete m k) k' = if k' = k then none else mapGet m k' := by
  cases m with
  | none => simp [mapGet, mapDelete]
  | some l => exact lookup_filter_key l k k'

/-- `error` truthy: the handler answers `oauthProviderError`, touches
nothing. -/
lemma GET_error_branch (req : CallbackRequest) (env : Env)
    (states : OAuthStates) (now : Int) (f : TokenRequest → FetchOutcome)
    (h : truthy req.error = true) :
    GET req env states now f =
      { response := .oauthProviderError (req.error.getD "") req.error_description
        states := states, lookups := [], requests := [] } := by
  simp [GET, h]

/-- `error` falsy and `code` or `state` falsy: `missingParams`, touches
nothing. -/
lemma GET_missing_branch (req : CallbackRequest) (env : Env)
    (states : OAuthStates) (now : Int) (f : TokenRequest → FetchOutcome)
    (he : truthy req.error = false)
    (h : truthy req.code = false ∨ truthy req.state = false) :
    GET req env states now f =
      { response := .missingParams (!truthy req.code) (!truthy req.state)
        states := states, lookups := [], requests := [] } := by
  rcases h with h | h <;> simp [GET, he, h]

/-- Parameters valid but no entry stored under `state`: `invalidState`,
store unchanged, no outbound request. -/
lemma GET_invalid_branch (req : CallbackRequest) (env : Env)
    (states : OAuthStates) (now : Int) (f : TokenRequest → FetchOutcome)
    (s : String)
    (he : truthy req.error = false) (hc : truthy req.code = true)
    (hst : truthy req.state = true) (hs : req.state = some s)
    (h : mapGet states s = none) :
    GET req env states now f =
      { response := .invalidState
        states := states, lookups := [s], requests := [] } := by
  have hst2 : truthy (some s) = true := hs ▸ hst
  simp [GET, he, hc, hst2, hs, h]

/-- Entry found but older than the TTL: `expiredState`, entry deleted,
no outbound request. -/
lemma GET_expired_branch (req : CallbackRequest) (env : Env)
    (states : OAuthStates) (now : Int) (f : TokenRequest → FetchOutcome)
    (s : String) (entry : StateEntry)
    (he : truthy req.error = false) (hc : truthy req.code = true)
    (hst : truthy req.state = true) (hs : req.state = some s)
    (hE : mapGet states s = some entry)
    (hexp : entry.timestamp < now - 600000) :
    GET req env states now f =
      { response := .expiredState
        states := mapDelete states s, lookups := [s], requests := [] } := by
  have hst2 : truthy (some s) = true := hs ▸ hst
  simp [GET, he, hc, hst2, hs, hE, hexp]

/-- Entry valid but client credentials falsy: `notConfigured`, store
unchanged, no outbound request. -/
lemma GET_notConfigured_branch (req : CallbackRequest) (env : Env)
    (states : OAuthStates) (now : Int) (f : TokenRequest → FetchOutcome)
    (s : String) (entry : StateEntry)
    (he : truthy req.error = false) (hc : truthy req.code = true)
    (hst : truthy req.state = true) (hs : req.state = some s)
    (hE : mapGet states s = some entry)
    (hexp : ¬ entry.timestamp < now - 600000)
    (hcred : truthy env.OAUTH_CLIENT_ID = false ∨
      truthy env.OAUTH_CLIENT_SECRET = false) :
    GET req env states now f =
      { response := .notConfigured
        states := states, lookups := [s], requests := [] } := by
  have hst2 : truthy (some s) = true := hs ▸ hst
  rcases hcred with h | h <;> simp [GET, he, hc, hst2, hs, hE, hexp, h]

/-- Exchange reached and the fetch resolves non-2xx:
`tokenExchangeFailed` carrying the provider status and body, store
unchanged, exactly the one request issued. -/
lemma GET_notOk_branch (req : CallbackRequest) (env : Env)
    (states : OAuthStates) (now : Int) (f : TokenRequest → FetchOutcome)
    (s : String) (entry : StateEntry) (st : Nat) (txt : String)
    (he : truthy req.error = false) (hc : truthy req.code = true)
    (hst : truthy req.state = true) (hs : req.state = some s)
    (hE : mapGet states s = some entry)
    (hexp : ¬ entry.timestamp < now - 600000)
    (hid : truthy env.OAUTH_CLIENT_ID = true)
    (hsec : truthy env.OAUTH_CLIENT_SECRET = true)
    (hf : f (mkTokenRequest env (req.code.getD "") entry.codeVerifier) =
      .notOk st txt) :
    GET req env states now f =
      { response := .tokenExchangeFailed st txt
        states := states, lookups := [s]
        requests := [mkTokenRequest env (req.code.getD "") entry.codeVerifier] } := by
  have hst2 : truthy (some s) = true := hs ▸ hst
  simp [GET, he, hc, hst2, hs, hE, hexp, hid, hsec, hf]

/-- Exchange reached and the fetch throws: `internalError` (the catch
block), store unchanged, exactly the one request issued. -/
lemma GET_threw_branch (req : CallbackRequest) (env : Env)
    (states : OAuthStates) (now : Int) (f : TokenRequest → FetchOutcome)
    (s : String) (entry : StateEntry) (msg : String)
    (he : truthy req.error = false) (hc : truthy req.code = true)
    (hst : truthy req.state = true) (hs : req.state = some s)
    (hE : mapGet states s = some entry)
    (hexp : ¬ entry.timestamp < now - 600000)
    (hid : truthy env.OAUTH_CLIENT_ID = true)
    (hsec : truthy env.OAUTH_CLIENT_SECRET = true)
    (hf : f (mkTokenRequest env (req.code.getD "") entry.codeVerifier) =
      .threw msg) :
    GET req env states now f =
      { response := .internalError msg
        states := states, lookups := [s]
        requests := [mkTokenRequest env (req.code.getD "") entry.codeVerifier] } := by
  have hst2 : truthy (some s) = true := hs ▸ hst
  simp [GET, he, hc, hst2, hs, hE, hexp, hid, hsec, hf]

/-- Exchange reached and the fetch resolves 2xx: `success` copying the
token fields, entry deleted, exactly the one request issued. -/
lemma GET_ok_branch (req : CallbackRequest) (env : Env)
    (states : OAuthStates) (now : Int) (f : TokenRequest → FetchOutcome)
    (s : String) (entry : StateEntry) (j : TokenJson)
    (he : truthy req.error = false) (hc : truthy req.code = true)
    (hst : truthy req.state = true) (hs : req.state = some s)
    (hE : mapGet states s = some entry)
    (hexp : ¬ entry.timestamp < now - 600000)
    (hid : truthy env.OAUTH_CLIENT_ID = true)
    (hsec : truthy env.OAUTH_CLIENT_SECRET = true)
    (hf : f (mkTokenRequest env (req.code.getD "") entry.codeVerifier) =
      .ok j) :
    GET req env states now f =
      { response := .success j.access_token j.token_type j.expires_in
          j.refresh_token j.scope
        states := mapDelete states s, lookups := [s]
        requests := [mkTokenRequest env (req.code.getD "") entry.codeVerifier] } := by
  have hst2 : truthy (some s) = true := hs ▸ hst
  simp [GET, he, hc, hst2, hs, hE, hexp, hid, hsec, hf]

/-! ### Claim theorems -/

/-- C3: a callback whose `error` query parameter is present (carries a
truthy value) is answered with the provider-error response — HTTP 400,
surfacing the provider's `error` and `error_description` — for every
possible `code`/`state` combination, store and environment; no store
lookup and no token request is made, so the missing-params check is
never reached with `error` present. -/
theorem C3_error_param_precedence (req : CallbackRequest) (env : Env)
    (states : OAuthStates) (now : Int) (f : TokenRequest → FetchOutcome)
    (h : truthy req.error = true) :
    GET req env states now f =
      { response := .oauthProviderError (req.error.getD "") req.error_description
        states := states, lookups := [], requests := [] } ∧
    (HandlerResponse.oauthProviderError (req.error.getD "")
      req.error_description).status = 400 :=
  ⟨GET_error_branch req env states now f h, rfl⟩

/-- C3 witness: `?error=access_denied` with no `code` and no `state`
yields the provider-error response, not the missing-params one. -/
theorem C3_error_param_precedence_witness :
    GET ⟨none, none, some "access_denied", some "user denied"⟩ wEnv wStates 0
        wFetchOk =
      { response := .oauthProviderError "access_denied" (some "user denied")
        states := wStates, lookups := [], requests := [] } :=
  (C3_error_param_precedence ⟨none, none, some "access_denied", some "user denied"⟩
    wEnv wStates 0 wFetchOk (by decide)).1

/-- C8: with `error` absent (falsy) and `code` or `state` falsy, the
handler answers the missing-params response (HTTP 400) whose body flags
exactly which of the two fields is missing, performs no store lookup
(`lookups = []`) and issues no token request (`requests = []`). -/
theorem C8_missing_params (req : CallbackRequest) (env : Env)
    (states : OAuthStates) (now : Int) (f : TokenRequest → FetchOutcome)
    (he : truthy req.error = false)
    (h : truthy req.code = false ∨ truthy req.state = false) :
    GET req env states now f =
      { response := .missingParams (!truthy req.code) (!truthy req.state)
        states := states, lookups := [], requests := [] } ∧
    (HandlerResponse.missingParams (!truthy req.code)
      (!truthy req.state)).status = 400 :=
  ⟨GET_missing_branch req env states now f he h, rfl⟩

/-- C8 witness: `?state=s1` with no `code` yields
`missingParams (missingCode := true) (missingState := false)` and no
lookup or outbound request. -/
theorem C8_missing_params_witness :
    GET ⟨none, some "s1", none, none⟩ wEnv wStates 0 wFetchOk =
      { response := .missingParams true false
        states := wStates, lookups := [], requests := [] } :=
  (C8_missing_params ⟨none, some "s1", none, none⟩ wEnv wStates 0 wFetchOk rfl
    (Or.inl rfl)).1

/-- C9: with `global.oauthStates` undefined (`none`), a callback carrying
truthy `code` and `state` is answered `invalidState` (HTTP 400) — the
optional chaining makes the undefined store indistinguishable from an
unknown state: the response equals the one produced by a defined store
with no entries. -/
theorem C9_undefined_store_invalid_state (req : CallbackRequest) (env : Env)
    (now : Int) (f : TokenRequest → FetchOutcome) (s : String)
    (he : truthy req.error = false) (hc : truthy req.code = true)
    (hst : truthy req.state = true) (hs : req.state = some s) :
    GET req env none now f =
      { response := .invalidState
        states := none, lookups := [s], requests := [] } ∧
    HandlerResponse.invalidState.status = 400 ∧
    (GET req env none now f).response = (GET req env (some []) now f).response := by
  have h1 := GET_invalid_branch req env none now f s he hc hst hs rfl
  have h2 := GET_invalid_branch req env (some []) now f s he hc hst hs rfl
  exact ⟨h1, rfl, by rw [h1, h2]⟩

/-- C9 witness: the request `?code=abc123&state=s1` against the
never-initialised store is answered `invalidState`. -/
theorem C9_undefined_store_invalid_state_witness :
    GET wReq wEnv none 0 wFetchOk =
      { response := .invalidState
        states := none, lookups := ["s1"], requests := [] } :=
  (C9_undefined_store_invalid_state wReq wEnv 0 wFetchOk "s1" rfl rfl rfl rfl).1

/-- C4: a callback whose `state` matches an entry strictly older than the
10-minute TTL deletes the entry, answers `expiredState` (HTTP 400) and
issues no token request; afterwards the entry is gone, so any repeated
callback with the same `state` (at any time) is answered `invalidState`. -/
theorem C4_expired_entry_deleted (req : CallbackRequest) (env : Env)
    (states : OAuthStates) (now : Int) (f : TokenRequest → FetchOutcome)
    (s : String) (entry : StateEntry)
    (he : truthy req.error = false) (hc : truthy req.code = true)
    (hst : truthy req.state = true) (hs : req.state = some s)
    (hE : mapGet states s = some entry)
    (hexp : entry.timestamp < now - 600000) :
    GET req env states now f =
      { response := .expiredState
        states := mapDelete states s, lookups := [s], requests := [] } ∧
    HandlerResponse.expiredState.status = 400 ∧
    mapGet (mapDelete states s) s = none ∧
    (∀ (req2 : CallbackRequest) (env2 : Env) (now2 : Int)
      (f2 : TokenRequest → FetchOutcome),
      truthy req2.error = false → truthy req2.code = true →
      req2.state = some s →
      (GET req2 env2 (mapDelete states s) now2 f2).response = .invalidState) := by
  have hdel : mapGet (mapDelete states s) s = none := by
    rw [mapGet_mapDelete]; simp
  refine ⟨GET_expired_branch req env states now f s entry he hc hst hs hE hexp,
    rfl, hdel, ?_⟩
  intro req2 env2 now2 f2 he2 hc2 hs2
  have hst2 : truthy req2.state = true := by rw [hs2]; exact hs ▸ hst
  rw [GET_invalid_branch req2 env2 (mapDelete states s) now2 f2 s he2 hc2 hst2
    hs2 hdel]

/-- C4 witness: the entry for `s1` stored at time 0 and queried at
time 600001 ms (TTL + 1 ms) is deleted and reported expired with no
outbound request; the repeat callback gets `invalidState`. -/
theorem C4_expired_entry_deleted_witness :
    GET wReq wEnv wStates 600001 wFetchOk =
      { response := .expiredState
        states := some [], lookups := ["s1"], requests := [] } ∧
    (GET wReq wEnv (mapDelete wStates "s1") 600001 wFetchOk).response =
      .invalidState := by
  have h := C4_expired_entry_deleted wReq wEnv wStates 600001 wFetchOk "s1"
    wEntry rfl rfl rfl rfl rfl (by decide)
  exact ⟨h.1, h.2.2.2 wReq wEnv 600001 wFetchOk rfl rfl rfl⟩

/-- C10: with valid parameters, a matching non-expired entry, and client
credentials missing (falsy `OAUTH_CLIENT_ID` or `OAUTH_CLIENT_SECRET`),
the handler answers the HTTP 500 not-configured response, issues no
token request, and the matched entry stays in the store. -/
theorem C10_not_configured_keeps_entry (req : CallbackRequest) (env : Env)
    (states : OAuthStates) (now : Int) (f : TokenRequest → FetchOutcome)
    (s : String) (entry : StateEntry)
    (he : truthy req.error = false) (hc : truthy req.code = true)
    (hst : truthy req.state = true) (hs : req.state = some s)
    (hE : mapGet states s = some entry)
    (hexp : ¬ entry.timestamp < now - 600000)
    (hcred : truthy env.OAUTH_CLIENT_ID = false ∨
      truthy env.OAUTH_CLIENT_SECRET = false) :
    GET req env states now f =
      { response := .notConfigured
        states := states, lookups := [s], requests := [] } ∧
    HandlerResponse.notConfigured.status = 500 ∧
    mapGet (GET req env states now f).states s = some entry := by
  have h := GET_notConfigured_branch req env states now f s entry he hc hst hs
    hE hexp hcred
  exact ⟨h, rfl, by rw [h]; exact hE⟩

/-- C10 witness: with no credentials configured, the fresh entry for `s1`
is reported not-configured and survives in the store. -/
theorem C10_not_configured_keeps_entry_witness :
    GET wReq wEnvBare wStates 1000 wFetchOk =
      { response := .notConfigured
        states := wStates, lookups := ["s1"], requests := [] } ∧
    mapGet (GET wReq wEnvBare wStates 1000 wFetchOk).states "s1" =
      some wEntry := by
  have h := C10_not_configured_keeps_entry wReq wEnvBare wStates 1000 wFetchOk
    "s1" wEntry rfl rfl rfl rfl rfl (by decide) (Or.inl rfl)
  exact ⟨h.1, h.2.2⟩

/-- A matched entry that is not strictly older than the TTL never yields
the expired response: the handler proceeds past the expiry check, ending
in one of the configuration/exchange outcomes. -/
lemma GET_not_expired_response (req : CallbackRequest) (env : Env)
    (states : OAuthStates) (now : Int) (f : TokenRequest → FetchOutcome)
    (s : String) (entry : StateEntry)
    (he : truthy req.error = false) (hc : truthy req.code = true)
    (hst : truthy req.state = true) (hs : req.state = some s)
    (hE : mapGet states s = some entry)
    (hexp : ¬ entry.timestamp < now - 600000) :
    (GET req env states now f).response ≠ .expiredState := by
  cases hid : truthy env.OAUTH_CLIENT_ID with
  | false =>
    rw [GET_notConfigured_branch req env states now f s entry he hc hst hs hE
      hexp (Or.inl hid)]
    simp
  | true =>
    cases hsec : truthy env.OAUTH_CLIENT_SECRET with
    | false =>
      rw [GET_notConfigured_branch req env states now f s entry he hc hst hs hE
        hexp (Or.inr hsec)]
      simp
    | true =>
      cases hfo : f (mkTokenRequest env (req.code.getD "") entry.codeVerifier) with
      | ok j =>
        rw [GET_ok_branch req env states now f s entry j he hc hst hs hE hexp
          hid hsec hfo]
        simp
      | notOk st txt =>
        rw [GET_notOk_branch req env states now f s entry st txt he hc hst hs
          hE hexp hid hsec hfo]
        simp
      | threw msg =>
        rw [GET_threw_branch req env states now f s entry msg he hc hst hs hE
          hexp hid hsec hfo]
        simp

/-- C5: expiry is strict.  For a matched entry, the handler answers
`expiredState` exactly when `now - createdAt > 600000` ms; an entry whose
age is exactly the TTL is still valid and (with credentials configured)
proceeds to the exchange, issuing the token request. -/
theorem C5_ttl_boundary_strict (req : CallbackRequest) (env : Env)
    (states : OAuthStates) (now : Int) (f : TokenRequest → FetchOutcome)
    (s : String) (entry : StateEntry)
    (he : truthy req.error = false) (hc : truthy req.code = true)
    (hst : truthy req.state = true) (hs : req.state = some s)
    (hE : mapGet states s = some entry) :
    ((GET req env states now f).response = .expiredState ↔
      now - entry.timestamp > 600000) ∧
    (now - entry.timestamp = 600000 →
      truthy env.OAUTH_CLIENT_ID = true →
      truthy env.OAUTH_CLIENT_SECRET = true →
      (GET req env states now f).requests =
        [mkTokenRequest env (req.code.getD "") entry.codeVerifier]) := by
  constructor
  · constructor
    · intro hr
      by_contra hage
      have hexp : ¬ entry.timestamp < now - 600000 := by omega
      exact GET_not_expired_response req env states now f s entry he hc hst hs
        hE hexp hr
    · intro hage
      have hexp : entry.timestamp < now - 600000 := by omega
      rw [GET_expired_branch req env states now f s entry he hc hst hs hE hexp]
  · intro hage hid hsec
    have hexp : ¬ entry.timestamp < now - 600000 := by omega
    cases hfo : f (mkTokenRequest env (req.code.getD "") entry.codeVerifier) with
    | ok j =>
      rw [GET_ok_branch req env states now f s entry j he hc hst hs hE hexp
        hid hsec hfo]
    | notOk st txt =>
      rw [GET_notOk_branch req env states now f s entry st txt he hc hst hs hE
        hexp hid hsec hfo]
    | threw msg =>
      rw [GET_threw_branch req env states now f s entry msg he hc hst hs hE
        hexp hid hsec hfo]

/-- C5 witness: at `now = 600000` ms the entry stored at time 0 has age
exactly the TTL — it is not expired and the exchange request goes out;
the expired classification would require age strictly above 600000 ms. -/
theorem C5_ttl_boundary_strict_witness :
    ((GET wReq wEnv wStates 600000 wFetchOk).response =
      HandlerResponse.expiredState ↔ (600000 : Int) - 0 > 600000) ∧
    (GET wReq wEnv wStates 600000 wFetchOk).requests =
      [mkTokenRequest wEnv "abc123" "v1"] := by
  have h := C5_ttl_boundary_strict wReq wEnv wStates 600000 wFetchOk "s1"
    wEntry rfl rfl rfl rfl rfl
  exact ⟨h.1, h.2 (by decide) rfl rfl⟩

/-- C2: when the lookup matches a valid entry and the token exchange
succeeds, the handler answers the success response carrying the token
fields, and the entry is deleted on that path; thereafter any callback
presenting the same `state` against a store without that key is answered
`invalidState` (HTTP 400), and such a callback never re-creates the key —
so every later callback with this `state` value keeps failing. -/
theorem C2_success_single_use (req : CallbackRequest) (env : Env)
    (states : OAuthStates) (now : Int) (f : TokenRequest → FetchOutcome)
    (s : String) (entry : StateEntry) (j : TokenJson)
    (he : truthy req.error = false) (hc : truthy req.code = true)
    (hst : truthy req.state = true) (hs : req.state = some s)
    (hE : mapGet states s = some entry)
    (hexp : ¬ entry.timestamp < now - 600000)
    (hid : truthy env.OAUTH_CLIENT_ID = true)
    (hsec : truthy env.OAUTH_CLIENT_SECRET = true)
    (hf : f (mkTokenRequest env (req.code.getD "") entry.codeVerifier) = .ok j) :
    (GET req env states now f).response =
      .success j.access_token j.token_type j.expires_in j.refresh_token
        j.scope ∧
    mapGet (GET req env states now f).states s = none ∧
    (∀ (req2 : CallbackRequest) (env2 : Env) (t : OAuthStates) (now2 : Int)
      (f2 : TokenRequest → FetchOutcome),
      mapGet t s = none → truthy req2.error = false →
      truthy req2.code = true → req2.state = some s →
      (GET req2 env2 t now2 f2).response = .invalidState ∧
      HandlerResponse.invalidState.status = 400 ∧
      mapGet (GET req2 env2 t now2 f2).states s = none) := by
  have h1 := GET_ok_branch req env states now f s entry j he hc hst hs hE hexp
    hid hsec hf
  refine ⟨by rw [h1], by rw [h1]; rw [mapGet_mapDelete]; simp, ?_⟩
  intro req2 env2 t now2 f2 ht he2 hc2 hs2
  have hst2 : truthy req2.state = true := by rw [hs2]; exact hs ▸ hst
  have h2 := GET_invalid_branch req2 env2 t now2 f2 s he2 hc2 hst2 hs2 ht
  exact ⟨by rw [h2], rfl, by rw [h2]; exact ht⟩

/-- C2 witness: first callback for `s1` succeeds with the stubbed token
`tok`; the identical second callback is answered `invalidState`. -/
theorem C2_success_single_use_witness :
    (GET wReq wEnv wStates 1000 wFetchOk).response =
      .success (some "tok") (some "bearer") (some 3600) none none ∧
    (GET wReq wEnv (GET wReq wEnv wStates 1000 wFetchOk).states 1000
      wFetchOk).response = .invalidState := by
  have h := C2_success_single_use wReq wEnv wStates 1000 wFetchOk "s1" wEntry
    wJson rfl rfl rfl rfl rfl (by decide) rfl rfl rfl
  exact ⟨h.1, (h.2.2 wReq wEnv (GET wReq wEnv wStates 1000 wFetchOk).states
    1000 wFetchOk h.2.1 rfl rfl rfl).1⟩

/-- C6: the two exchange-failure modes are distinguished by HTTP status.
A non-2xx token-endpoint response yields a 400 `tokenExchangeFailed`
surfacing the provider's status and body text; a thrown fetch (transport
failure) yields a 500 response surfacing the error message.  Either way
exactly one token request was issued — no retry. -/
theorem C6_exchange_failure_statuses (req : CallbackRequest) (env : Env)
    (states : OAuthStates) (now : Int) (f : TokenRequest → FetchOutcome)
    (s : String) (entry : StateEntry)
    (he : truthy req.error = false) (hc : truthy req.code = true)
    (hst : truthy req.state = true) (hs : req.state = some s)
    (hE : mapGet states s = some entry)
    (hexp : ¬ entry.timestamp < now - 600000)
    (hid : truthy env.OAUTH_CLIENT_ID = true)
    (hsec : truthy env.OAUTH_CLIENT_SECRET = true) :
    (∀ (st : Nat) (txt : String),
      f (mkTokenRequest env (req.code.getD "") entry.codeVerifier) =
        .notOk st txt →
      (GET req env states now f).response = .tokenExchangeFailed st txt ∧
      ((GET req env states now f).response).status = 400 ∧
      (GET req env states now f).requests =
        [mkTokenRequest env (req.code.getD "") entry.codeVerifier]) ∧
    (∀ msg : String,
      f (mkTokenRequest env (req.code.getD "") entry.codeVerifier) =
        .threw msg →
      (GET req env states now f).response = .internalError msg ∧
      ((GET req env states now f).response).status = 500 ∧
      (GET req env states now f).requests =
        [mkTokenRequest env (req.code.getD "") entry.codeVerifier]) := by
  constructor
  · intro st txt hfo
    have h := GET_notOk_branch req env states now f s entry st txt he hc hst hs
      hE hexp hid hsec hfo
    exact ⟨by rw [h], by rw [h]; rfl, by rw [h]⟩
  · intro msg hfo
    have h := GET_threw_branch req env states now f s entry msg he hc hst hs hE
      hexp hid hsec hfo
    exact ⟨by rw [h], by rw [h]; rfl, by rw [h]⟩

/-- C6 witness: a 400 `invalid_grant` token response yields the 400
failure response with the provider body surfaced and one outbound
request. -/
theorem C6_exchange_failure_statuses_witness :
    (GET wReq wEnv wStates 1000 wFetchBad).response =
      .tokenExchangeFailed 400 "invalid_grant" ∧
    ((GET wReq wEnv wStates 1000 wFetchBad).response).status = 400 ∧
    (GET wReq wEnv wStates 1000 wFetchBad).requests =
      [mkTokenRequest wEnv "abc123" "v1"] := by
  have h := C6_exchange_failure_statuses wReq wEnv wStates 1000 wFetchBad "s1"
    wEntry rfl rfl rfl rfl rfl (by decide) rfl rfl
  exact h.1 400 "invalid_grant" rfl

/-- C7: on reaching the exchange step the handler issues exactly one POST
to the provider's token URL, form-encoded with `grant_type =
authorization_code`, the configured client id and secret, the callback's
`code`, the configured redirect URI, and the matched entry's
`codeVerifier`; a 2xx response is answered with the parsed token fields. -/
theorem C7_exchange_request_shape (req : CallbackRequest) (env : Env)
    (states : OAuthStates) (now : Int) (f : TokenRequest → FetchOutcome)
    (s : String) (entry : StateEntry)
    (he : truthy req.error = false) (hc : truthy req.code = true)
    (hst : truthy req.state = true) (hs : req.state = some s)
    (hE : mapGet states s = some entry)
    (hexp : ¬ entry.timestamp < now - 600000)
    (hid : truthy env.OAUTH_CLIENT_ID = true)
    (hsec : truthy env.OAUTH_CLIENT_SECRET = true) :
    (GET req env states now f).requests =
      [mkTokenRequest env (req.code.getD "") entry.codeVerifier] ∧
    mkTokenRequest env (req.code.getD "") entry.codeVerifier =
      { url := "https://api.anthropic.com/oauth/token"
        method := "POST"
        contentType := "application/x-www-form-urlencoded"
        accept := "application/json"
        body := [("grant_type", "authorization_code"),
                 ("client_id", env.OAUTH_CLIENT_ID.getD ""),
                 ("client_secret", env.OAUTH_CLIENT_SECRET.getD ""),
                 ("code", req.code.getD ""),
                 ("redirect_uri", redirectUri env),
                 ("code_verifier", entry.codeVerifier)] } ∧
    (∀ j : TokenJson,
      f (mkTokenRequest env (req.code.getD "") entry.codeVerifier) = .ok j →
      (GET req env states now f).response =
        .success j.access_token j.token_type j.expires_in j.refresh_token
          j.scope) := by
  refine ⟨?_, rfl, ?_⟩
  · cases hfo : f (mkTokenRequest env (req.code.getD "") entry.codeVerifier) with
    | ok j =>
      rw [GET_ok_branch req env states now f s entry j he hc hst hs hE hexp
        hid hsec hfo]
    | notOk st txt =>
      rw [GET_notOk_branch req env states now f s entry st txt he hc hst hs hE
        hexp hid hsec hfo]
    | threw msg =>
      rw [GET_threw_branch req env states now f s entry msg he hc hst hs hE
        hexp hid hsec hfo]
  · intro j hfo
    rw [GET_ok_branch req env states now f s entry j he hc hst hs hE hexp hid
      hsec hfo]

/-- C7 witness: the single outbound request for `?code=abc123&state=s1`
with verifier `v1`, and the success response echoing the stub tokens. -/
theorem C7_exchange_request_shape_witness :
    (GET wReq wEnv wStates 1000 wFetchOk).requests =
      [{ url := "https://api.anthropic.com/oauth/token"
         method := "POST"
         contentType := "application/x-www-form-urlencoded"
         accept := "application/json"
         body := [("grant_type", "authorization_code"),
                  ("client_id", "cid"),
                  ("client_secret", "csecret"),
                  ("code", "abc123"),
                  ("redirect_uri", "https://example.com/api/oauth/callback"),
                  ("code_verifier", "v1")] }] ∧
    (GET wReq wEnv wStates 1000 wFetchOk).response =
      .success (some "tok") (some "bearer") (some 3600) none none := by
  have h := C7_exchange_request_shape wReq wEnv wStates 1000 wFetchOk "s1"
    wEntry rfl rfl rfl rfl rfl (by decide) rfl rfl
  exact ⟨by rw [h.1]; rfl, h.2.2 wJson rfl⟩

/-- C1 fails on the code: the lookup is a non-destructive
`global.oauthStates?.get(state)` and deletion happens only on the expiry
and success paths.  Concretely, for the valid entry `s1` and a token
endpoint answering HTTP 400, the handler answers `tokenExchangeFailed`
but the entry is still stored afterwards, and the retried callback with
the same `state` is not answered `invalidState` — it issues a fresh
token request instead. -/
theorem C1_counterexample :
    (GET wReq wEnv wStates 1000 wFetchBad).response =
      .tokenExchangeFailed 400 "invalid_grant" ∧
    mapGet (GET wReq wEnv wStates 1000 wFetchBad).states "s1" =
      some wEntry ∧
    (GET wReq wEnv (GET wReq wEnv wStates 1000 wFetchBad).states 1000
      wFetchBad).response ≠ .invalidState ∧
    (GET wReq wEnv (GET wReq wEnv wStates 1000 wFetchBad).states 1000
      wFetchBad).requests ≠ [] := by
  refine ⟨rfl, rfl, ?_, ?_⟩ <;> decide

/-- C1 amended: the state entry is NOT consumed before the exchange.
When the lookup matches a valid entry, credentials are configured and
the token endpoint answers non-2xx, the handler responds
`tokenExchangeFailed` (HTTP 400) and leaves the whole store unchanged,
so an identical retried callback performs a fresh exchange — it issues
the same token request again and again answers `tokenExchangeFailed`,
not `invalidState`. -/
theorem C1_failed_exchange_keeps_entry (req : CallbackRequest) (env : Env)
    (states : OAuthStates) (now : Int) (f : TokenRequest → FetchOutcome)
    (s : String) (entry : StateEntry) (st : Nat) (txt : String)
    (he : truthy req.error = false) (hc : truthy req.code = true)
    (hst : truthy req.state = true) (hs : req.state = some s)
    (hE : mapGet states s = some entry)
    (hexp : ¬ entry.timestamp < now - 600000)
    (hid : truthy env.OAUTH_CLIENT_ID = true)
    (hsec : truthy env.OAUTH_CLIENT_SECRET = true)
    (hf : f (mkTokenRequest env (req.code.getD "") entry.codeVerifier) =
      .notOk st txt) :
    (GET req env states now f).response = .tokenExchangeFailed st txt ∧
    (GET req env states now f).states = states ∧
    (GET req env (GET req env states now f).states now f).requests =
      [mkTokenRequest env (req.code.getD "") entry.codeVerifier] ∧
    (GET req env (GET req env states now f).states now f).response ≠
      .invalidState := by
  have h := GET_notOk_branch req env states now f s entry st txt he hc hst hs
    hE hexp hid hsec hf
  have hsame : (GET req env states now f).states = states := by rw [h]
  refine ⟨by rw [h], hsame, ?_, ?_⟩
  · rw [hsame, h]
  · rw [hsame, h]
    simp

/-- C1 amended witness: the scenario of the counterexample, derived by
instantiating the amended theorem at it. -/
theorem C1_failed_exchange_keeps_entry_witness :
    (GET wReq wEnv wStates 1000 wFetchBad).response =
      .tokenExchangeFailed 400 "invalid_grant" ∧
    (GET wReq wEnv wStates 1000 wFetchBad).states = wStates ∧
    (GET wReq wEnv (GET wReq wEnv wStates 1000 wFetchBad).states 1000
      wFetchBad).response ≠ .invalidState := by
  have h := C1_failed_exchange_keeps_entry wReq wEnv wStates 1000 wFetchBad
    "s1" wEntry 400 "invalid_grant" rfl rfl rfl rfl rfl (by decide) rfl rfl rfl
  exact ⟨h.1, h.2.1, h.2.2.2⟩
